import Mathlib

/-!
Verification development for the order pricing, voucher, stock and
status-transition logic of an e-commerce storefront (Next.js frontend,
Express/Mongoose backend).

The Mongoose voucher schema and the new-products page are embedded
directly from the source files.  The order service itself (order total
calculator, voucher evaluator, shipping fee calculator, status state
machine, stock reservation) is not present in the repository snapshot:
only its HTTP test suite, a controller shell and the frontend callers
are.  Those components are modelled from the specification, as marked
on each definition.
-/

/-- Order status enumeration, from the status filter of the orders page
and section 4.4 of the specification. -/
inductive Status where
  | pending
  | processing
  | shipped
  | delivered
  | cancelled
deriving DecidableEq, Repr

/-- Requesting-actor role, supplied by the authentication middleware. -/
inductive Role where
  | admin
  | customer
deriving DecidableEq, Repr

/-- An authenticated actor: a role together with a user identifier. -/
structure Actor where
  role : Role
  userId : Nat
deriving DecidableEq, Repr

/-- Error taxonomy of sections 4.1 to 4.5 and 7 of the specification. -/
inductive OrderErr where
  | EmptyOrder
  | InvalidAddress
  | InvalidVoucher
  | OutOfStock
  | InvalidTransition
  | StateError
  | NotFoundErr
  | Inactive
  | BelowMinimum
  | AboveMaximum
  | UsageExceeded
  | UnresolvableAddress
  | ValidationFailed
deriving DecidableEq, Repr

/-- Voucher document, embedded from the Mongoose schema in
src/server/models/VoucherSchema.js.  Money amounts and the discount
percent are integers; maximumOrderValue is an Option since the schema
default is null, meaning no upper bound. -/
structure Voucher where
  code : String
  discountPercent : Int
  maximumOrderValue : Option Int
  minimumOrderValue : Int
  maximumDiscountAmount : Int
  startDate : Nat
  endDate : Nat
  isActive : Bool
  usageLimit : Nat
  isOneTimePerUser : Bool
deriving DecidableEq, Repr

/-- Creation payload for a voucher: required fields plus the optional
fields of the schema.  A field set to none was not supplied by the
client, so the schema default applies. -/
structure VoucherInput where
  code : String
  discountPercent : Int
  startDate : Nat
  endDate : Nat
  maximumOrderValue? : Option (Option Int)
  minimumOrderValue? : Option Int
  maximumDiscountAmount? : Option Int
  isActive? : Option Bool
  usageLimit? : Option Nat
  isOneTimePerUser? : Option Bool
deriving Repr

/-- Builds the voucher document from a creation payload, filling each
missing optional field with the schema default declared in
src/server/models/VoucherSchema.js: maximumOrderValue null,
minimumOrderValue 0, maximumDiscountAmount 200000, isActive true,
usageLimit 1, isOneTimePerUser true. -/
def createVoucher (inp : VoucherInput) : Voucher :=
  { code := inp.code
    discountPercent := inp.discountPercent
    maximumOrderValue := inp.maximumOrderValue?.getD none
    minimumOrderValue := inp.minimumOrderValue?.getD 0
    maximumDiscountAmount := inp.maximumDiscountAmount?.getD 200000
    startDate := inp.startDate
    endDate := inp.endDate
    isActive := inp.isActive?.getD true
    usageLimit := inp.usageLimit?.getD 1
    isOneTimePerUser := inp.isOneTimePerUser?.getD true }

/-- Schema-level validation of a voucher document: the schema declares
min 0 and max 100 on discountPercent. -/
def voucherValidate (v : Voucher) : Bool :=
  decide (0 ≤ v.discountPercent) && decide (v.discountPercent ≤ 100)

/-- Modelled from the spec: the create-voucher operation.  The service
wrapping VoucherSchema is absent from the snapshot; per Mongoose
semantics a document is stored only if schema validation passes. -/
def saveVoucher (inp : VoucherInput) : Except OrderErr Voucher :=
  let v := createVoucher inp
  if voucherValidate v then .ok v else .error .ValidationFailed

/-- Update payload for a voucher: every field optional; a none field is
left unchanged. -/
structure VoucherUpdate where
  discountPercent? : Option Int
  maximumOrderValue? : Option (Option Int)
  minimumOrderValue? : Option Int
  maximumDiscountAmount? : Option Int
  startDate? : Option Nat
  endDate? : Option Nat
  isActive? : Option Bool
  usageLimit? : Option Nat
  isOneTimePerUser? : Option Bool
deriving Repr

/-- Applies an update payload to a stored voucher document. -/
def applyVoucherUpdate (v : Voucher) (u : VoucherUpdate) : Voucher :=
  { code := v.code
    discountPercent := u.discountPercent?.getD v.discountPercent
    maximumOrderValue := u.maximumOrderValue?.getD v.maximumOrderValue
    minimumOrderValue := u.minimumOrderValue?.getD v.minimumOrderValue
    maximumDiscountAmount := u.maximumDiscountAmount?.getD v.maximumDiscountAmount
    startDate := u.startDate?.getD v.startDate
    endDate := u.endDate?.getD v.endDate
    isActive := u.isActive?.getD v.isActive
    usageLimit := u.usageLimit?.getD v.usageLimit
    isOneTimePerUser := u.isOneTimePerUser?.getD v.isOneTimePerUser }

/-- Modelled from the spec: the update-voucher operation, revalidating
the document against the schema before storing it. -/
def updateVoucher (v : Voucher) (u : VoucherUpdate) : Except OrderErr Voucher :=
  let v2 := applyVoucherUpdate v u
  if voucherValidate v2 then .ok v2 else .error .ValidationFailed

/-- Modelled from the spec: the discount computed by the voucher
evaluator, min of subtotal times discountPercent over 100 and the
maximumDiscountAmount cap. -/
def voucherDiscount (v : Voucher) (subtotal : Int) : Int :=
  min (subtotal * v.discountPercent / 100) v.maximumDiscountAmount

/-- Modelled from the spec: per-user usage gate, allowing a use when
the count already consumed by the requesting user is below the limit,
which is one when isOneTimePerUser is set and usageLimit otherwise. -/
def usageAllowed (v : Voucher) (userUsed : Nat) : Bool :=
  decide (userUsed < (if v.isOneTimePerUser then 1 else v.usageLimit))

/-- A validated order line item: product-variant reference, quantity
and unit price. -/
structure LineItem where
  variantId : Nat
  quantity : Nat
  unitPrice : Int
deriving DecidableEq, Repr

/-- Modelled from the spec: the voucher evaluator of section 4.1.  The
service implementing it is absent from the snapshot.  Looks the voucher
up by code, then gates on the active flag and validity window, the
order-value bounds and the per-user usage limit, and on success
returns the capped discount. -/
def evaluateVoucher (store : List Voucher) (code : String) (subtotal : Int)
    (now : Nat) (userUsed : Nat) : Except OrderErr Int :=
  match store.find? (fun v => v.code == code) with
  | none => .error .NotFoundErr
  | some v =>
    if !v.isActive || decide (now < v.startDate) || decide (v.endDate < now) then
      .error .Inactive
    else if decide (subtotal < v.minimumOrderValue) then
      .error .BelowMinimum
    else if (match v.maximumOrderValue with
             | some m => decide (m < subtotal)
             | none => false) then
      .error .AboveMaximum
    else if !usageAllowed v userUsed then
      .error .UsageExceeded
    else
      .ok (voucherDiscount v subtotal)

/-- A destination address at region granularity. -/
structure Address where
  id : Nat
  region : String
deriving DecidableEq, Repr

/-- Looks a region up in a shipping fee table. -/
def feeLookup (table : List (String × Int)) (region : String) : Option Int :=
  (table.find? (fun e => e.1 == region)).map (fun e => e.2)

/-- Modelled from the spec: the shipping fee calculator of section 4.2,
a deterministic table lookup that fails with UnresolvableAddress when
the address maps to no known zone.  The service implementing it is
absent from the snapshot. -/
def shippingFeeCalc (table : List (String × Int)) (a : Address) :
    Except OrderErr Int :=
  match feeLookup table a.region with
  | some f => .ok f
  | none => .error .UnresolvableAddress

/-- The shipping fee calculator as a state-passing operation, to make
its freedom from side effects a provable statement: it returns the
ambient state unchanged. -/
def shippingFeeOp {σ : Type} (st : σ) (table : List (String × Int))
    (a : Address) : σ × Except OrderErr Int :=
  (st, shippingFeeCalc table a)

/-- The total breakdown returned by the order total calculator. -/
structure Totals where
  subtotal : Int
  shippingFee : Int
  discountAmount : Int
  finalTotal : Int
deriving DecidableEq, Repr

/-- Subtotal of a list of line items: the sum of quantity times unit
price, per section 4.3. -/
def subtotalOf (items : List LineItem) : Int :=
  (items.map (fun it => (it.quantity : Int) * it.unitPrice)).sum

/-- Modelled from the spec: the order total calculator of section 4.3.
The service implementing it is absent from the snapshot.  Fails with
EmptyOrder on an empty item list, propagates shipping and voucher
failures as InvalidAddress and InvalidVoucher, and otherwise returns
the breakdown with finalTotal equal to subtotal plus shipping fee
minus discount. -/
def computeTotal (store : List Voucher) (table : List (String × Int))
    (items : List LineItem) (addr : Address) (code? : Option String)
    (now : Nat) (userUsed : Nat) : Except OrderErr Totals :=
  if items.isEmpty then .error .EmptyOrder
  else
    match shippingFeeCalc table addr with
    | .error _ => .error .InvalidAddress
    | .ok fee =>
      let s := subtotalOf items
      match code? with
      | none =>
        .ok { subtotal := s, shippingFee := fee, discountAmount := 0,
              finalTotal := s + fee - 0 }
      | some c =>
        match evaluateVoucher store c s now userUsed with
        | .error _ => .error .InvalidVoucher
        | .ok d =>
          .ok { subtotal := s, shippingFee := fee, discountAmount := d,
                finalTotal := s + fee - d }

/-- A product variant with its stock quantity and active flag, per
section 3.  Stock is an integer so that nonnegativity is a provable
invariant rather than a typing artifact. -/
structure Variant where
  id : Nat
  stock : Int
  isActive : Bool
deriving DecidableEq, Repr

/-- Modelled from the spec: one step of the stock reservation check of
section 4.5.  Finds the variant of the line item; fails with
OutOfStock when the variant is inactive or the requested quantity
exceeds its current stock, and otherwise decrements that stock. -/
def decrementOne (it : LineItem) : List Variant → Except OrderErr (List Variant)
  | [] => .error .NotFoundErr
  | v :: tl =>
    if v.id == it.variantId then
      if v.isActive && decide ((it.quantity : Int) ≤ v.stock) then
        .ok ({ v with stock := v.stock - (it.quantity : Int) } :: tl)
      else
        .error .OutOfStock
    else
      match decrementOne it tl with
      | .error e => .error e
      | .ok tl2 => .ok (v :: tl2)

/-- Modelled from the spec: the stock reservation check applied to all
line items of an order, item by item against the evolving stock. -/
def decrementItems (vs : List Variant) : List LineItem → Except OrderErr (List Variant)
  | [] => .ok vs
  | it :: rest =>
    match decrementOne it vs with
    | .error e => .error e
    | .ok vs2 => decrementItems vs2 rest

/-- Modelled from the spec: the reservation as the atomic operation of
section 4.5, either all decrements apply or the stock list is returned
unchanged together with the failure. -/
def reserveStock (vs : List Variant) (items : List LineItem) :
    List Variant × Option OrderErr :=
  match decrementItems vs items with
  | .ok vs2 => (vs2, none)
  | .error e => (vs, some e)

/-- Restores the quantity of one line item to its variant, used when a
cancellation releases reserved stock. -/
def restoreOne (it : LineItem) : List Variant → List Variant
  | [] => []
  | v :: tl =>
    if v.id == it.variantId then
      { v with stock := v.stock + (it.quantity : Int) } :: tl
    else
      v :: restoreOne it tl

/-- Modelled from the spec: releasing the reserved stock of every line
item of a cancelled order, per section 4.4. -/
def restoreItems (vs : List Variant) : List LineItem → List Variant
  | [] => vs
  | it :: rest => restoreItems (restoreOne it vs) rest

/-- Observation: the stock of the variant with the given id, if any. -/
def stockOf : List Variant → Nat → Option Int
  | [], _ => none
  | v :: tl, vid => if v.id == vid then some v.stock else stockOf tl vid

/-- Observation: the total quantity that a list of line items requests
from the variant with the given id. -/
def totalQty : List LineItem → Nat → Int
  | [], _ => 0
  | it :: rest, vid =>
    (if it.variantId == vid then (it.quantity : Int) else 0) + totalQty rest vid

/-- An order document, per section 3: line items, owning user, status
and the total breakdown. -/
structure Order where
  id : Nat
  user : Nat
  items : List LineItem
  status : Status
  subtotal : Int
  shippingFee : Int
  discountAmount : Int
  finalTotal : Int
deriving DecidableEq, Repr

/-- Modelled from the spec: the create-order operation of sections 2
and 6.  Stock reservation runs first, then the order total calculator;
on any failure the caller keeps its stock list, so nothing is applied
partially.  The order is persisted in pending status. -/
def createOrder (store : List Voucher) (table : List (String × Int))
    (vs : List Variant) (items : List LineItem) (addr : Address)
    (code? : Option String) (now userUsed uid oid : Nat) :
    Except OrderErr (List Variant × Order) :=
  match decrementItems vs items with
  | .error e => .error e
  | .ok vs2 =>
    match computeTotal store table items addr code? now userUsed with
    | .error e => .error e
    | .ok t =>
      .ok (vs2, { id := oid, user := uid, items := items, status := .pending,
                  subtotal := t.subtotal, shippingFee := t.shippingFee,
                  discountAmount := t.discountAmount,
                  finalTotal := t.finalTotal })

/-- Terminal statuses of section 4.4: delivered and cancelled. -/
def isTerminal : Status → Bool
  | .delivered => true
  | .cancelled => true
  | _ => false

/-- Modelled from the spec: the transition table of section 4.4, as a
pure predicate on source and target status. -/
def pairAllowed : Status → Status → Bool
  | .pending, .processing => true
  | .pending, .cancelled => true
  | .processing, .shipped => true
  | .processing, .cancelled => true
  | .shipped, .delivered => true
  | .shipped, .cancelled => true
  | _, _ => false

/-- Modelled from the spec: the actor column of the table of section
4.4.  An admin may trigger every listed transition; a customer only
the cancellation of an own pending order. -/
def actorAllowed (src dst : Status) (a : Actor) (ownerId : Nat) : Bool :=
  match a.role with
  | .admin => true
  | .customer => src == .pending && dst == .cancelled && a.userId == ownerId

/-- Modelled from the spec: the order status state machine of section
4.4.  A pair outside the table fails with InvalidTransition; a pair in
the table requested by an actor not allowed to trigger it fails with
StateError; otherwise the status is updated. -/
def transition (o : Order) (target : Status) (a : Actor) : Except OrderErr Order :=
  if pairAllowed o.status target then
    if actorAllowed o.status target a o.user then
      .ok { o with status := target }
    else
      .error .StateError
  else
    .error .InvalidTransition

/-- Modelled from the spec: the cancel-order operation.  It is the
state machine transition to cancelled; when the order had progressed
to processing or shipped, the reserved stock of every line item is
released, per section 4.4. -/
def cancelOrder (vs : List Variant) (o : Order) (a : Actor) :
    Except OrderErr (List Variant × Order) :=
  match transition o .cancelled a with
  | .error e => .error e
  | .ok o2 =>
    if o.status == .processing || o.status == .shipped then
      .ok (restoreItems vs o.items, o2)
    else
      .ok (vs, o2)

/-- A product as consumed by the new-products page: creation timestamp
in milliseconds, active flag and sale flag. -/
structure Product where
  id : Nat
  createdAt : Nat
  isActive : Bool
  onSale : Bool
  price : Int
deriving DecidableEq, Repr

/-- Threshold constant of the new-products page: products newer than
90 days are truly new. -/
def NEW_THRESHOLD_DAYS : Nat := 90

/-- Minimum number of products the new-products page always shows. -/
def MIN_NEW_PRODUCTS : Nat := 50

/-- The cutoff timestamp: now minus 90 days in milliseconds, from
fetchNewProducts in the new-products page. -/
def newThreshold (now : Nat) : Nat :=
  now - NEW_THRESHOLD_DAYS * 24 * 60 * 60 * 1000

/-- The active, non-sale filter applied first by fetchNewProducts. -/
def activeNonSale (ps : List Product) : List Product :=
  ps.filter (fun p => p.isActive && !p.onSale)

/-- Comparator of the new-products page sorts: newest first, by
creation timestamp descending. -/
def prodLe (a b : Product) : Bool :=
  decide (b.createdAt ≤ a.createdAt)

/-- The truly new products: active, non-sale, created at or after the
cutoff. -/
def trulyNew (now : Nat) (ps : List Product) : List Product :=
  (activeNonSale ps).filter (fun p => decide (newThreshold now ≤ p.createdAt))

/-- The older active non-sale products, sorted newest first, as built
by fetchNewProducts before backfilling. -/
def olderSorted (now : Nat) (ps : List Product) : List Product :=
  ((activeNonSale ps).filter (fun p => decide (p.createdAt < newThreshold now))).mergeSort prodLe

/-- The backfill slice: the newest older products, as many as are
needed to reach the minimum count. -/
def backfill (now : Nat) (ps : List Product) : List Product :=
  (olderSorted now ps).take (MIN_NEW_PRODUCTS - (trulyNew now ps).length)

/-- Embedded from fetchNewProducts in the new-products page
(src/unnamed/part_001): keep active non-sale products, split at the
90-day cutoff, backfill with the newest older ones when the truly new
ones number fewer than the minimum, and sort the final selection by
creation date descending. -/
def fetchNewProducts (now : Nat) (ps : List Product) : List Product :=
  let reallyNew := trulyNew now ps
  let final :=
    if reallyNew.length < MIN_NEW_PRODUCTS then
      reallyNew ++ backfill now ps
    else
      reallyNew
  final.mergeSort prodLe


/-- A creation payload that supplies only the required schema fields,
leaving every optional field unset. -/
def bareVoucherInput (code : String) (p : Int) (s e : Nat) : VoucherInput :=
  { code := code, discountPercent := p, startDate := s, endDate := e
    maximumOrderValue? := none, minimumOrderValue? := none
    maximumDiscountAmount? := none, isActive? := none
    usageLimit? := none, isOneTimePerUser? := none }

/-- The voucher of the worked scenario in section 8 of the spec:
twenty percent off, minimum order value 300000, discount cap 80000,
valid from time 0 to time 1000. -/
def scenVoucher : Voucher :=
  { code := "SALE20", discountPercent := 20, maximumOrderValue := none,
    minimumOrderValue := 300000, maximumDiscountAmount := 80000,
    startDate := 0, endDate := 1000, isActive := true, usageLimit := 1,
    isOneTimePerUser := true }

/-- C10: a voucher created without explicit values for the optional
fields receives minimumOrderValue 0, maximumOrderValue none,
maximumDiscountAmount 200000, isActive true, usageLimit 1 and
isOneTimePerUser true; hence its discount never exceeds 200000 and a
user who has already redeemed it once may not redeem it again. -/
theorem voucher_defaults_spec (code : String) (p : Int) (s e : Nat) :
    (createVoucher (bareVoucherInput code p s e)).minimumOrderValue = 0 ∧
    (createVoucher (bareVoucherInput code p s e)).maximumOrderValue = none ∧
    (createVoucher (bareVoucherInput code p s e)).maximumDiscountAmount = 200000 ∧
    (createVoucher (bareVoucherInput code p s e)).isActive = true ∧
    (createVoucher (bareVoucherInput code p s e)).usageLimit = 1 ∧
    (createVoucher (bareVoucherInput code p s e)).isOneTimePerUser = true ∧
    (∀ subtotal : Int,
      voucherDiscount (createVoucher (bareVoucherInput code p s e)) subtotal ≤ 200000) ∧
    usageAllowed (createVoucher (bareVoucherInput code p s e)) 1 = false := by
  refine ⟨rfl, rfl, rfl, rfl, rfl, rfl, ?_, rfl⟩
  intro subtotal
  exact min_le_right _ _

/-- C7: every voucher accepted by the create or update operation has a
discountPercent between 0 and 100 inclusive. -/
theorem voucher_discount_percent_bounds (inp : VoucherInput)
    (v0 : Voucher) (u : VoucherUpdate) (v w : Voucher)
    (hc : saveVoucher inp = .ok v)
    (hu : updateVoucher v0 u = .ok w) :
    (0 ≤ v.discountPercent ∧ v.discountPercent ≤ 100) ∧
    (0 ≤ w.discountPercent ∧ w.discountPercent ≤ 100) := by
  constructor
  · unfold saveVoucher at hc
    by_cases h : voucherValidate (createVoucher inp) = true
    · simp [h] at hc
      subst hc
      unfold voucherValidate at h
      simp only [Bool.and_eq_true, decide_eq_true_eq] at h
      exact h
    · simp [h] at hc
  · unfold updateVoucher at hu
    by_cases h : voucherValidate (applyVoucherUpdate v0 u) = true
    · simp [h] at hu
      subst hu
      unfold voucherValidate at h
      simp only [Bool.and_eq_true, decide_eq_true_eq] at h
      exact h
    · simp [h] at hu

/-- C7 witness: a concrete creation and a concrete update both pass
validation and the bounds hold for the stored documents. -/
theorem voucher_discount_percent_bounds_witness :
    (0 ≤ (20 : Int) ∧ (20 : Int) ≤ 100) ∧ (0 ≤ (30 : Int) ∧ (30 : Int) ≤ 100) := by
  have h := voucher_discount_percent_bounds
    { code := "SUMMER20", discountPercent := 20, startDate := 0, endDate := 10
      maximumOrderValue? := none, minimumOrderValue? := none
      maximumDiscountAmount? := none, isActive? := none
      usageLimit? := none, isOneTimePerUser? := none }
    { code := "SUMMER20", discountPercent := 20
      maximumOrderValue := none, minimumOrderValue := 0
      maximumDiscountAmount := 200000, startDate := 0, endDate := 10
      isActive := true, usageLimit := 1, isOneTimePerUser := true }
    { discountPercent? := some 30, maximumOrderValue? := none
      minimumOrderValue? := none, maximumDiscountAmount? := none
      startDate? := none, endDate? := none, isActive? := none
      usageLimit? := none, isOneTimePerUser? := none }
    { code := "SUMMER20", discountPercent := 20
      maximumOrderValue := none, minimumOrderValue := 0
      maximumDiscountAmount := 200000, startDate := 0, endDate := 10
      isActive := true, usageLimit := 1, isOneTimePerUser := true }
    { code := "SUMMER20", discountPercent := 30
      maximumOrderValue := none, minimumOrderValue := 0
      maximumDiscountAmount := 200000, startDate := 0, endDate := 10
      isActive := true, usageLimit := 1, isOneTimePerUser := true }
    rfl rfl
  exact h

/-- C6: with an empty line-item list the order total calculator fails
with EmptyOrder, and so does the create-order operation, which hence
returns no total and creates no order. -/
theorem empty_order_rejected (store : List Voucher) (table : List (String × Int))
    (vs : List Variant) (addr : Address) (code? : Option String)
    (now userUsed uid oid : Nat) :
    computeTotal store table [] addr code? now userUsed = .error .EmptyOrder ∧
    createOrder store table vs [] addr code? now userUsed uid oid = .error .EmptyOrder := by
  exact ⟨rfl, rfl⟩

/-- C8: the shipping fee calculator is pure and deterministic.  As a
state-passing operation it leaves the ambient state unchanged and its
result does not depend on that state; two addresses with the same
region get the same fee; and it fails with UnresolvableAddress exactly
when the fee table maps the region of the address to no zone. -/
theorem shipping_fee_pure_lookup {σ : Type} (st st2 : σ)
    (table : List (String × Int)) (a b : Address) :
    (shippingFeeOp st table a).1 = st ∧
    (shippingFeeOp st table a).2 = (shippingFeeOp st2 table a).2 ∧
    (a.region = b.region → shippingFeeCalc table a = shippingFeeCalc table b) ∧
    (shippingFeeCalc table a = .error .UnresolvableAddress ↔
      feeLookup table a.region = none) := by
  refine ⟨rfl, rfl, ?_, ?_⟩
  · intro h
    unfold shippingFeeCalc
    rw [h]
  · unfold shippingFeeCalc
    cases hf : feeLookup table a.region <;> simp

/-- C8 witness: with a one-zone table, two distinct addresses of the
same region resolve to the same fee. -/
theorem shipping_fee_pure_lookup_witness :
    shippingFeeCalc [("HN", 30000)] { id := 1, region := "HN" } =
      shippingFeeCalc [("HN", 30000)] { id := 2, region := "HN" } :=
  (shipping_fee_pure_lookup (0 : Nat) 1 [("HN", 30000)]
    { id := 1, region := "HN" } { id := 2, region := "HN" }).2.2.1 rfl

/-- C3: the state machine rejects the direct transition from pending
to delivered with InvalidTransition for every actor; the owning
customer may cancel a pending order; a customer requesting the
cancellation of a processing order fails with StateError; and in
general a transition succeeds exactly when its status pair is in the
table of section 4.4 and the actor may trigger it. -/
theorem order_status_transition_spec (o : Order) (a : Actor) (t : Status) :
    (o.status = .pending → transition o .delivered a = .error .InvalidTransition) ∧
    (o.status = .pending → a.role = .customer → a.userId = o.user →
      transition o .cancelled a = .ok { o with status := .cancelled }) ∧
    (o.status = .processing → a.role = .customer →
      transition o .cancelled a = .error .StateError) ∧
    ((∃ o2, transition o t a = .ok o2) ↔
      (pairAllowed o.status t = true ∧ actorAllowed o.status t a o.user = true)) := by
  refine ⟨?_, ?_, ?_, ?_⟩
  · intro h
    simp [transition, h, pairAllowed]
  · intro h hr hu
    simp [transition, h, pairAllowed, actorAllowed, hr, hu]
  · intro h hr
    simp [transition, h, pairAllowed, actorAllowed, hr]
  · unfold transition
    by_cases hp : pairAllowed o.status t = true
    · by_cases ha : actorAllowed o.status t a o.user = true
      · simp [hp, ha]
      · simp [hp, ha]
    · simp [hp]

/-- C3 witness: a customer owning a pending order cancels it, and the
same order cannot jump from pending straight to delivered. -/
theorem order_status_transition_spec_witness :
    transition
      { id := 1, user := 7, items := [], status := .pending, subtotal := 0,
        shippingFee := 0, discountAmount := 0, finalTotal := 0 }
      .cancelled { role := .customer, userId := 7 } =
    .ok { id := 1, user := 7, items := [], status := .cancelled, subtotal := 0,
          shippingFee := 0, discountAmount := 0, finalTotal := 0 } :=
  (order_status_transition_spec
    { id := 1, user := 7, items := [], status := .pending, subtotal := 0,
      shippingFee := 0, discountAmount := 0, finalTotal := 0 }
    { role := .customer, userId := 7 } .cancelled).2.1 rfl rfl rfl

/-- C2: for a voucher found by code, the evaluator succeeds exactly
when the voucher is active, the current time lies in the validity
window, the subtotal lies within the configured order-value bounds
with a missing maximum meaning unbounded, and the per-user usage
limit is not exhausted; the discount returned is the minimum of
subtotal times discountPercent over 100 and maximumDiscountAmount.
In the worked scenario with subtotal 500000, twenty percent, minimum
300000, cap 80000 and shipping fee 30000, the discount is 80000 and
the final total 450000. -/
theorem voucher_evaluator_spec (store : List Voucher) (code : String)
    (s : Int) (now used : Nat) (v : Voucher)
    (h : store.find? (fun x => x.code == code) = some v) :
    ((∃ d, evaluateVoucher store code s now used = .ok d) ↔
      (v.isActive = true ∧ v.startDate ≤ now ∧ now ≤ v.endDate ∧
       v.minimumOrderValue ≤ s ∧
       (∀ m, v.maximumOrderValue = some m → s ≤ m) ∧
       usageAllowed v used = true)) ∧
    (∀ d, evaluateVoucher store code s now used = .ok d →
      d = min (s * v.discountPercent / 100) v.maximumDiscountAmount) ∧
    evaluateVoucher [scenVoucher] "SALE20" 500000 500 0 = .ok 80000 ∧
    computeTotal [scenVoucher] [("HN", 30000)]
      [{ variantId := 1, quantity := 1, unitPrice := 500000 }]
      { id := 1, region := "HN" } (some "SALE20") 500 0 =
      .ok { subtotal := 500000, shippingFee := 30000, discountAmount := 80000,
            finalTotal := 450000 } := by
  have hiff1 : (!v.isActive || decide (now < v.startDate) || decide (v.endDate < now)) = true ↔
      ¬(v.isActive = true ∧ v.startDate ≤ now ∧ now ≤ v.endDate) := by
    cases hA : v.isActive
    · simp
    · simp
      omega
  have hiff2 : decide (s < v.minimumOrderValue) = true ↔ ¬(v.minimumOrderValue ≤ s) := by
    simp
  have hiff3 : (match v.maximumOrderValue with
      | some m => decide (m < s)
      | none => false) = true ↔ ¬(∀ m, v.maximumOrderValue = some m → s ≤ m) := by
    cases hm : v.maximumOrderValue with
    | none => simp
    | some m =>
      simp only [decide_eq_true_eq, Option.some.injEq]
      constructor
      · intro hlt hall
        exact absurd (hall m rfl) (by omega)
      · intro hna
        by_contra hc
        exact hna (by intro m2 hm2; omega)
  have hiff4 : (!usageAllowed v used) = true ↔ ¬(usageAllowed v used = true) := by
    simp
  refine ⟨?_, ?_, by rfl, by rfl⟩ <;> simp only [evaluateVoucher, h]
  · by_cases b1 : (!v.isActive || decide (now < v.startDate) || decide (v.endDate < now)) = true
    · rw [if_pos b1]
      constructor
      · rintro ⟨d, hd⟩
        simp at hd
      · rintro ⟨hA, hS, hE, -, -, -⟩
        exact absurd ⟨hA, hS, hE⟩ (hiff1.mp b1)
    · rw [if_neg b1]
      by_cases b2 : decide (s < v.minimumOrderValue) = true
      · rw [if_pos b2]
        constructor
        · rintro ⟨d, hd⟩
          simp at hd
        · rintro ⟨-, -, -, hMin, -, -⟩
          exact absurd hMin (hiff2.mp b2)
      · rw [if_neg b2]
        by_cases b3 : (match v.maximumOrderValue with
            | some m => decide (m < s)
            | none => false) = true
        · rw [if_pos b3]
          constructor
          · rintro ⟨d, hd⟩
            simp at hd
          · rintro ⟨-, -, -, -, hMax, -⟩
            exact absurd hMax (hiff3.mp b3)
        · rw [if_neg b3]
          by_cases b4 : (!usageAllowed v used) = true
          · rw [if_pos b4]
            constructor
            · rintro ⟨d, hd⟩
              simp at hd
            · rintro ⟨-, -, -, -, -, hU⟩
              exact absurd hU (hiff4.mp b4)
          · rw [if_neg b4]
            constructor
            · intro hok
              have hP1 := not_not.mp (fun hp => b1 (hiff1.mpr hp))
              have hP2 := not_not.mp (fun hp => b2 (hiff2.mpr hp))
              have hP3 := not_not.mp (fun hp => b3 (hiff3.mpr hp))
              have hP4 := not_not.mp (fun hp => b4 (hiff4.mpr hp))
              exact ⟨hP1.1, hP1.2.1, hP1.2.2, hP2, hP3, hP4⟩
            · intro hc
              exact ⟨voucherDiscount v s, rfl⟩
  · intro d
    by_cases b1 : (!v.isActive || decide (now < v.startDate) || decide (v.endDate < now)) = true
    · rw [if_pos b1]
      intro hd
      simp at hd
    · rw [if_neg b1]
      by_cases b2 : decide (s < v.minimumOrderValue) = true
      · rw [if_pos b2]
        intro hd
        simp at hd
      · rw [if_neg b2]
        by_cases b3 : (match v.maximumOrderValue with
            | some m => decide (m < s)
            | none => false) = true
        · rw [if_pos b3]
          intro hd
          simp at hd
        · rw [if_neg b3]
          by_cases b4 : (!usageAllowed v used) = true
          · rw [if_pos b4]
            intro hd
            simp at hd
          · rw [if_neg b4]
            intro hd
            simp only [Except.ok.injEq] at hd
            rw [← hd]
            rfl

/-- C2 witness: the scenario voucher evaluated at subtotal 500000
returns the capped discount, which matches the min formula. -/
theorem voucher_evaluator_spec_witness :
    (80000 : Int) =
      min ((500000 : Int) * scenVoucher.discountPercent / 100)
        scenVoucher.maximumDiscountAmount :=
  (voucher_evaluator_spec [scenVoucher] "SALE20" 500000 500 0 scenVoucher
    rfl).2.1 80000 rfl

/-- The subtotal of validated line items with nonnegative unit prices
is nonnegative. -/
lemma subtotalOf_nonneg (items : List LineItem)
    (h : ∀ it ∈ items, 0 ≤ it.unitPrice) : 0 ≤ subtotalOf items := by
  unfold subtotalOf
  apply List.sum_nonneg
  intro x hx
  simp only [List.mem_map] at hx
  obtain ⟨it, hit, rfl⟩ := hx
  exact mul_nonneg (Int.natCast_nonneg _) (h it hit)

/-- A fee resolved from a table of nonnegative fees is nonnegative. -/
lemma shippingFeeCalc_nonneg (table : List (String × Int)) (a : Address)
    (f : Int) (ht : ∀ e ∈ table, 0 ≤ e.2)
    (h : shippingFeeCalc table a = .ok f) : 0 ≤ f := by
  cases hf : table.find? (fun e => e.1 == a.region) with
  | none => simp [shippingFeeCalc, feeLookup, hf] at h
  | some e =>
    simp only [shippingFeeCalc, feeLookup, hf, Option.map_some',
      Except.ok.injEq] at h
    rw [← h]
    exact ht e (List.mem_of_find?_eq_some hf)

/-- A discount granted by the evaluator over a store of schema-valid
vouchers never exceeds the nonnegative subtotal it applies to. -/
lemma evaluateVoucher_le (store : List Voucher) (code : String)
    (s : Int) (now used : Nat) (d : Int) (hs : 0 ≤ s)
    (hstore : ∀ v ∈ store, voucherValidate v = true)
    (hok : evaluateVoucher store code s now used = .ok d) : d ≤ s := by
  cases hf : store.find? (fun x => x.code == code) with
  | none => simp [evaluateVoucher, hf] at hok
  | some v =>
    simp only [evaluateVoucher, hf] at hok
    have hv := hstore v (List.mem_of_find?_eq_some hf)
    unfold voucherValidate at hv
    simp only [Bool.and_eq_true, decide_eq_true_eq] at hv
    split_ifs at hok
    simp only [Except.ok.injEq] at hok
    rw [← hok]
    unfold voucherDiscount
    refine le_trans (min_le_left _ _) ?_
    have h1 : s * v.discountPercent ≤ s * 100 :=
      mul_le_mul_of_nonneg_left hv.2 hs
    have h2 : s * v.discountPercent / 100 ≤ s * 100 / 100 :=
      Int.ediv_le_ediv (by norm_num) h1
    have h3 : s * (100 : Int) / 100 = s := Int.mul_ediv_cancel s (by norm_num)
    omega

/-- C1: whenever the order total calculator returns a breakdown, and
whenever the create-order operation persists an order, the final total
equals subtotal plus shipping fee minus discount amount and is
nonnegative, given a store of schema-valid vouchers, a fee table with
nonnegative fees, and validated line items with nonnegative unit
prices. -/
theorem order_total_invariant (store : List Voucher) (table : List (String × Int))
    (vs : List Variant) (items : List LineItem) (addr : Address)
    (code? : Option String) (now userUsed uid oid : Nat)
    (hstore : ∀ v ∈ store, voucherValidate v = true)
    (htable : ∀ e ∈ table, 0 ≤ e.2)
    (hitems : ∀ it ∈ items, 0 ≤ it.unitPrice) :
    (∀ t, computeTotal store table items addr code? now userUsed = .ok t →
      t.finalTotal = t.subtotal + t.shippingFee - t.discountAmount ∧
      0 ≤ t.finalTotal) ∧
    (∀ vs2 o,
      createOrder store table vs items addr code? now userUsed uid oid = .ok (vs2, o) →
      o.finalTotal = o.subtotal + o.shippingFee - o.discountAmount ∧
      0 ≤ o.finalTotal) := by
  have hmain : ∀ t, computeTotal store table items addr code? now userUsed = .ok t →
      t.finalTotal = t.subtotal + t.shippingFee - t.discountAmount ∧
      0 ≤ t.finalTotal := by
    intro t ht
    by_cases he : items.isEmpty
    · simp [computeTotal, he] at ht
    · cases hsf : shippingFeeCalc table addr with
      | error e => simp [computeTotal, he, hsf] at ht
      | ok fee =>
        have hfee : 0 ≤ fee := shippingFeeCalc_nonneg table addr fee htable hsf
        have hsub : 0 ≤ subtotalOf items := subtotalOf_nonneg items hitems
        cases code? with
        | none =>
          simp only [computeTotal, he, if_false, Bool.false_eq_true, hsf,
            Except.ok.injEq] at ht
          rw [← ht]
          refine ⟨rfl, ?_⟩
          show (0 : Int) ≤ subtotalOf items + fee - 0
          omega
        | some c =>
          cases hev : evaluateVoucher store c (subtotalOf items) now userUsed with
          | error e => simp [computeTotal, he, hsf, hev] at ht
          | ok d =>
            simp only [computeTotal, he, if_false, Bool.false_eq_true, hsf, hev,
              Except.ok.injEq] at ht
            have hd : d ≤ subtotalOf items :=
              evaluateVoucher_le store c (subtotalOf items) now userUsed d hsub hstore hev
            rw [← ht]
            refine ⟨rfl, ?_⟩
            show (0 : Int) ≤ subtotalOf items + fee - d
            omega
  refine ⟨hmain, ?_⟩
  intro vs2 o hco
  cases hdec : decrementItems vs items with
  | error e => simp [createOrder, hdec] at hco
  | ok vsd =>
    cases hct : computeTotal store table items addr code? now userUsed with
    | error e => simp [createOrder, hdec, hct] at hco
    | ok t =>
      simp only [createOrder, hdec, hct, Except.ok.injEq, Prod.mk.injEq] at hco
      obtain ⟨-, rfl⟩ := hco
      exact hmain t hct

/-- C1 witness: a concrete one-item order without a voucher satisfies
the final-total invariant. -/
theorem order_total_invariant_witness :
    ((30200 : Int) = 200 + 30000 - 0 ∧ (0 : Int) ≤ 30200) :=
  (order_total_invariant [] [("HN", 30000)] []
    [{ variantId := 1, quantity := 2, unitPrice := 100 }]
    { id := 1, region := "HN" } none 0 0 5 9
    (by simp) (by simp) (by simp)).1
    { subtotal := 200, shippingFee := 30000, discountAmount := 0,
      finalTotal := 30200 } rfl

/-- A successful single decrement keeps every stock nonnegative. -/
lemma decrementOne_nonneg (it : LineItem) : ∀ (vs vs2 : List Variant),
    (∀ v ∈ vs, 0 ≤ v.stock) → decrementOne it vs = .ok vs2 →
    ∀ v ∈ vs2, 0 ≤ v.stock := by
  intro vs
  induction vs with
  | nil => intro vs2 h hd; simp [decrementOne] at hd
  | cons v tl ih =>
    intro vs2 h hd
    simp only [decrementOne] at hd
    by_cases hb : (v.id == it.variantId) = true
    · rw [if_pos hb] at hd
      by_cases hc : (v.isActive && decide ((it.quantity : Int) ≤ v.stock)) = true
      · rw [if_pos hc] at hd
        simp only [Except.ok.injEq] at hd
        subst hd
        intro w hw
        simp only [List.mem_cons] at hw
        rcases hw with rfl | hw
        · simp only [Bool.and_eq_true, decide_eq_true_eq] at hc
          have hq : (0 : Int) ≤ (it.quantity : Int) := Int.natCast_nonneg _
          simp only
          omega
        · exact h w (List.mem_cons_of_mem _ hw)
      · rw [if_neg hc] at hd
        simp at hd
    · rw [if_neg hb] at hd
      cases hr : decrementOne it tl with
      | error e => simp [hr] at hd
      | ok tl2 =>
        simp only [hr, Except.ok.injEq] at hd
        subst hd
        intro w hw
        simp only [List.mem_cons] at hw
        rcases hw with rfl | hw
        · exact h w (by simp)
        · exact ih tl2 (fun u hu => h u (List.mem_cons_of_mem _ hu)) hr w hw

/-- A successful multi-item decrement keeps every stock nonnegative. -/
lemma decrementItems_nonneg : ∀ (items : List LineItem) (vs vs2 : List Variant),
    (∀ v ∈ vs, 0 ≤ v.stock) → decrementItems vs items = .ok vs2 →
    ∀ v ∈ vs2, 0 ≤ v.stock := by
  intro items
  induction items with
  | nil =>
    intro vs vs2 h hd
    simp only [decrementItems, Except.ok.injEq] at hd
    subst hd
    exact h
  | cons it rest ih =>
    intro vs vs2 h hd
    simp only [decrementItems] at hd
    cases hone : decrementOne it vs with
    | error e => simp [hone] at hd
    | ok vsm =>
      simp only [hone] at hd
      exact ih vsm vs2 (decrementOne_nonneg it vs vsm h hone) hd

/-- A decrement aimed at an inactive variant or requesting more than
the current stock fails with OutOfStock. -/
lemma decrementOne_outOfStock (it : LineItem) : ∀ (vs : List Variant) (v : Variant),
    vs.find? (fun w => w.id == it.variantId) = some v →
    (v.isActive = false ∨ v.stock < (it.quantity : Int)) →
    decrementOne it vs = .error .OutOfStock := by
  intro vs
  induction vs with
  | nil => intro v hf hbad; simp at hf
  | cons w tl ih =>
    intro v hf hbad
    by_cases hb : (w.id == it.variantId) = true
    · simp only [List.find?, hb, Option.some.injEq] at hf
      subst hf
      simp only [decrementOne]
      rw [if_pos hb, if_neg]
      intro hc
      simp only [Bool.and_eq_true, decide_eq_true_eq] at hc
      rcases hbad with h1 | h1
      · rw [h1] at hc
        exact absurd hc.1 (by simp)
      · omega
    · rw [Bool.not_eq_true] at hb
      simp only [List.find?, hb] at hf
      simp only [decrementOne]
      rw [if_neg (by simp [hb]), ih v hf hbad]

/-- Effect of a successful single decrement on observed stocks: the
stock of the target variant drops by the requested quantity and every
other stock is unchanged. -/
lemma stockOf_decrementOne (it : LineItem) : ∀ (vs vs2 : List Variant) (vid : Nat),
    decrementOne it vs = .ok vs2 →
    stockOf vs2 vid = if it.variantId == vid then
      (stockOf vs vid).map (fun s => s - (it.quantity : Int))
    else stockOf vs vid := by
  intro vs
  induction vs with
  | nil => intro vs2 vid hd; simp [decrementOne] at hd
  | cons w tl ih =>
    intro vs2 vid hd
    simp only [decrementOne] at hd
    by_cases hb : (w.id == it.variantId) = true
    · rw [if_pos hb] at hd
      by_cases hc : (w.isActive && decide ((it.quantity : Int) ≤ w.stock)) = true
      · rw [if_pos hc] at hd
        simp only [Except.ok.injEq] at hd
        subst hd
        have hbe : w.id = it.variantId := by simpa using hb
        by_cases hv : w.id = vid
        · have hm : it.variantId = vid := by omega
          simp [stockOf, hv, hm]
        · have hm : ¬it.variantId = vid := by omega
          simp [stockOf, hv, hm]
      · rw [if_neg hc] at hd
        simp at hd
    · rw [if_neg hb] at hd
      cases hr : decrementOne it tl with
      | error e => simp [hr] at hd
      | ok tl2 =>
        simp only [hr, Except.ok.injEq] at hd
        subst hd
        have hben : ¬w.id = it.variantId := by simpa using hb
        have hrec := ih tl2 vid hr
        by_cases hv : w.id = vid
        · have hm : ¬it.variantId = vid := by omega
          simp [stockOf, hv, hm]
        · simp only [stockOf]
          simp [hv]
          simpa using hrec

/-- Effect of a successful multi-item decrement on observed stocks:
each stock drops by the total quantity the items request from it. -/
lemma stockOf_decrementItems (vid : Nat) : ∀ (items : List LineItem) (vs vs2 : List Variant),
    decrementItems vs items = .ok vs2 →
    stockOf vs2 vid = (stockOf vs vid).map (fun s => s - totalQty items vid) := by
  intro items
  induction items with
  | nil =>
    intro vs vs2 hd
    simp only [decrementItems, Except.ok.injEq] at hd
    subst hd
    cases h : stockOf vs vid <;> simp [totalQty, h]
  | cons it rest ih =>
    intro vs vs2 hd
    simp only [decrementItems] at hd
    cases hone : decrementOne it vs with
    | error e => simp [hone] at hd
    | ok vsm =>
      simp only [hone] at hd
      have h1 := ih vsm vs2 hd
      have h2 := stockOf_decrementOne it vs vsm vid hone
      rw [h1, h2]
      have ht : totalQty (it :: rest) vid =
          (if it.variantId == vid then (it.quantity : Int) else 0) + totalQty rest vid := rfl
      rw [ht]
      by_cases hm : (it.variantId == vid) = true
      · rw [if_pos hm, if_pos hm]
        cases h : stockOf vs vid with
        | none => simp
        | some s0 =>
          simp only [Option.map_some', Option.some.injEq]
          omega
      · rw [if_neg hm, if_neg hm]
        cases h : stockOf vs vid with
        | none => simp
        | some s0 =>
          simp only [Option.map_some', Option.some.injEq]
          omega

/-- Effect of a single stock release on observed stocks. -/
lemma stockOf_restoreOne (it : LineItem) : ∀ (vs : List Variant) (vid : Nat),
    stockOf (restoreOne it vs) vid = if it.variantId == vid then
      (stockOf vs vid).map (fun s => s + (it.quantity : Int))
    else stockOf vs vid := by
  intro vs
  induction vs with
  | nil =>
    intro vid
    by_cases hm : (it.variantId == vid) = true
    · rw [if_pos hm]; simp [restoreOne, stockOf]
    · rw [if_neg hm]; simp [restoreOne, stockOf]
  | cons w tl ih =>
    intro vid
    simp only [restoreOne]
    by_cases hb : (w.id == it.variantId) = true
    · rw [if_pos hb]
      have hbe : w.id = it.variantId := by simpa using hb
      by_cases hv : w.id = vid
      · have hm : it.variantId = vid := by omega
        simp [stockOf, hv, hm]
      · have hm : ¬it.variantId = vid := by omega
        simp [stockOf, hv, hm]
    · rw [if_neg hb]
      have hben : ¬w.id = it.variantId := by simpa using hb
      have hrec := ih vid
      by_cases hv : w.id = vid
      · have hm : ¬it.variantId = vid := by omega
        simp [stockOf, hv, hm]
      · simp only [stockOf]
        simp [hv]
        simpa using hrec

/-- Effect of releasing all line items on observed stocks: each stock
rises by the total quantity the items had requested from it. -/
lemma stockOf_restoreItems (vid : Nat) : ∀ (items : List LineItem) (vs : List Variant),
    stockOf (restoreItems vs items) vid =
      (stockOf vs vid).map (fun s => s + totalQty items vid) := by
  intro items
  induction items with
  | nil =>
    intro vs
    cases h : stockOf vs vid <;> simp [restoreItems, totalQty, h]
  | cons it rest ih =>
    intro vs
    simp only [restoreItems]
    rw [ih (restoreOne it vs), stockOf_restoreOne it vs vid]
    have ht : totalQty (it :: rest) vid =
        (if it.variantId == vid then (it.quantity : Int) else 0) + totalQty rest vid := rfl
    rw [ht]
    by_cases hm : (it.variantId == vid) = true
    · rw [if_pos hm, if_pos hm]
      cases h : stockOf vs vid with
      | none => simp
      | some s0 =>
        simp only [Option.map_some', Option.some.injEq]
        omega
    · rw [if_neg hm, if_neg hm]
      cases h : stockOf vs vid with
      | none => simp
      | some s0 =>
        simp only [Option.map_some', Option.some.injEq]
        omega

/-- C4: stock never becomes negative under any sequence of decrement
requests; a request that exceeds current stock or targets an inactive
variant fails with OutOfStock; a failing multi-item reservation leaves
every stock unchanged; and a successful one decrements every variant
by exactly the total requested quantity, all as one atomic outcome. -/
theorem stock_decrement_safety (vs : List Variant) (items : List LineItem)
    (it : LineItem) (v : Variant) :
    ((∀ w ∈ vs, 0 ≤ w.stock) → ∀ w ∈ (reserveStock vs items).1, 0 ≤ w.stock) ∧
    (∀ e, decrementItems vs items = .error e → reserveStock vs items = (vs, some e)) ∧
    (∀ vs2, decrementItems vs items = .ok vs2 →
      ∀ vid, stockOf vs2 vid = (stockOf vs vid).map (fun s => s - totalQty items vid)) ∧
    (vs.find? (fun w => w.id == it.variantId) = some v →
      (v.isActive = false ∨ v.stock < (it.quantity : Int)) →
      decrementOne it vs = .error .OutOfStock) := by
  refine ⟨?_, ?_, ?_, ?_⟩
  · intro h
    unfold reserveStock
    cases hd : decrementItems vs items with
    | ok vs2 =>
      simp only
      exact decrementItems_nonneg items vs vs2 h hd
    | error e =>
      simp only
      exact h
  · intro e he
    simp [reserveStock, he]
  · intro vs2 hd vid
    exact stockOf_decrementItems vid items vs vs2 hd
  · exact decrementOne_outOfStock it vs v

/-- C4 witness: two line items against stocks one and five, the first
requesting two units, fail atomically with OutOfStock and both stocks
stay untouched; the single over-quantity decrement also fails. -/
theorem stock_decrement_safety_witness :
    reserveStock
      [{ id := 1, stock := 1, isActive := true },
       { id := 2, stock := 5, isActive := true }]
      [{ variantId := 1, quantity := 2, unitPrice := 100 },
       { variantId := 2, quantity := 1, unitPrice := 100 }] =
      ([{ id := 1, stock := 1, isActive := true },
        { id := 2, stock := 5, isActive := true }], some .OutOfStock) ∧
    decrementOne { variantId := 1, quantity := 2, unitPrice := 100 }
      [{ id := 1, stock := 1, isActive := true },
       { id := 2, stock := 5, isActive := true }] = .error .OutOfStock := by
  constructor
  · exact (stock_decrement_safety
      [{ id := 1, stock := 1, isActive := true },
       { id := 2, stock := 5, isActive := true }]
      [{ variantId := 1, quantity := 2, unitPrice := 100 },
       { variantId := 2, quantity := 1, unitPrice := 100 }]
      { variantId := 1, quantity := 2, unitPrice := 100 }
      { id := 1, stock := 1, isActive := true }).2.1 .OutOfStock rfl
  · exact (stock_decrement_safety
      [{ id := 1, stock := 1, isActive := true },
       { id := 2, stock := 5, isActive := true }]
      [{ variantId := 1, quantity := 2, unitPrice := 100 },
       { variantId := 2, quantity := 1, unitPrice := 100 }]
      { variantId := 1, quantity := 2, unitPrice := 100 }
      { id := 1, stock := 1, isActive := true }).2.2.2 rfl
      (Or.inr (by decide))

/-- C5: cancelling an order whose stock was reserved at creation and
that has progressed to processing or shipped releases the reserved
stock of every line item exactly once: after the cancellation every
observable stock equals its pre-order value, and a repeated
cancellation of the now cancelled order fails with InvalidTransition
for every actor, changing nothing further. -/
theorem cancel_restores_stock (vs vs1 : List Variant) (o : Order) (a : Actor)
    (hd : decrementItems vs o.items = .ok vs1)
    (hst : o.status = .processing ∨ o.status = .shipped)
    (ha : a.role = .admin) :
    cancelOrder vs1 o a =
      .ok (restoreItems vs1 o.items, { o with status := .cancelled }) ∧
    (∀ vid, stockOf (restoreItems vs1 o.items) vid = stockOf vs vid) ∧
    (∀ b : Actor,
      cancelOrder (restoreItems vs1 o.items) { o with status := .cancelled } b =
        .error .InvalidTransition) := by
  refine ⟨?_, ?_, ?_⟩
  · rcases hst with h | h <;>
      simp [cancelOrder, transition, pairAllowed, actorAllowed, h, ha]
  · intro vid
    rw [stockOf_restoreItems vid o.items vs1,
      stockOf_decrementItems vid o.items vs vs1 hd]
    cases h : stockOf vs vid with
    | none => simp
    | some s0 =>
      simp only [Option.map_some', Option.some.injEq]
      omega
  · intro b
    simp [cancelOrder, transition, pairAllowed]

/-- C5 witness: an admin cancels a processing one-item order; the
observable stock of the ordered variant returns to its pre-order
value five. -/
theorem cancel_restores_stock_witness :
    stockOf
      (restoreItems [{ id := 1, stock := 3, isActive := true }]
        [{ variantId := 1, quantity := 2, unitPrice := 100 }]) 1 =
      stockOf [{ id := 1, stock := 5, isActive := true }] 1 :=
  (cancel_restores_stock
    [{ id := 1, stock := 5, isActive := true }]
    [{ id := 1, stock := 3, isActive := true }]
    { id := 1, user := 7,
      items := [{ variantId := 1, quantity := 2, unitPrice := 100 }],
      status := .processing, subtotal := 200, shippingFee := 0,
      discountAmount := 0, finalTotal := 200 }
    { role := .admin, userId := 0 } rfl (Or.inl rfl) rfl).2.1 1

/-- The newest-first comparator is transitive. -/
lemma prodLe_trans : ∀ (a b c : Product), prodLe a b = true → prodLe b c = true →
    prodLe a c = true := by
  intro a b c
  simp only [prodLe, decide_eq_true_eq]
  omega

/-- The newest-first comparator is total. -/
lemma prodLe_total : ∀ (a b : Product), (prodLe a b || prodLe b a) = true := by
  intro a b
  simp only [prodLe, Bool.or_eq_true, decide_eq_true_eq]
  omega

/-- A filter and its complement partition the length of a list. -/
lemma length_filter_not {α : Type} (p : α → Bool) (l : List α) :
    (l.filter p).length + (l.filter (fun a => !(p a))).length = l.length := by
  induction l with
  | nil => simp
  | cons a tl ih =>
    cases h : p a <;> simp [List.filter_cons, h] <;> omega

/-- C9: the new-products list is a permutation of the truly new
products, that is the active non-sale products created in the last
ninety days, extended, when those number fewer than fifty, by the
newest older active non-sale products up to the minimum count; it is
sorted by creation date descending; when backfill applies, its length
is fifty or the number of active non-sale products, whichever is
smaller; and every truly new entry precedes every backfilled one. -/
theorem new_products_page_spec (now : Nat) (ps : List Product) :
    (fetchNewProducts now ps).Perm
      (if (trulyNew now ps).length < MIN_NEW_PRODUCTS then
        trulyNew now ps ++ backfill now ps
      else trulyNew now ps) ∧
    (fetchNewProducts now ps).Pairwise (fun a b => b.createdAt ≤ a.createdAt) ∧
    ((trulyNew now ps).length < MIN_NEW_PRODUCTS →
      (fetchNewProducts now ps).length =
        min MIN_NEW_PRODUCTS (activeNonSale ps).length) ∧
    (∀ (i j : Fin (fetchNewProducts now ps).length),
      newThreshold now ≤ ((fetchNewProducts now ps).get i).createdAt →
      ((fetchNewProducts now ps).get j).createdAt < newThreshold now →
      (i : Nat) < (j : Nat)) := by
  have hpw : (fetchNewProducts now ps).Pairwise
      (fun a b => b.createdAt ≤ a.createdAt) := by
    have hs := List.sorted_mergeSort prodLe_trans prodLe_total
      (if (trulyNew now ps).length < MIN_NEW_PRODUCTS then
        trulyNew now ps ++ backfill now ps
      else trulyNew now ps)
    refine List.Pairwise.imp ?_ hs
    intro a b hab
    simpa [prodLe] using hab
  refine ⟨List.mergeSort_perm _ prodLe, hpw, ?_, ?_⟩
  · intro hlt
    have hp1 : (fetchNewProducts now ps).length =
        (if (trulyNew now ps).length < MIN_NEW_PRODUCTS then
          trulyNew now ps ++ backfill now ps
        else trulyNew now ps).length :=
      (List.mergeSort_perm _ prodLe).length_eq
    rw [if_pos hlt] at hp1
    have hp2 : (olderSorted now ps).length =
        ((activeNonSale ps).filter
          (fun p => decide (p.createdAt < newThreshold now))).length :=
      (List.mergeSort_perm _ prodLe).length_eq
    have hp3 : (trulyNew now ps).length +
        ((activeNonSale ps).filter
          (fun p => decide (p.createdAt < newThreshold now))).length =
        (activeNonSale ps).length := by
      have hcongr : (activeNonSale ps).filter
            (fun p => decide (p.createdAt < newThreshold now)) =
          (activeNonSale ps).filter
            (fun p => !(decide (newThreshold now ≤ p.createdAt))) := by
        apply List.filter_congr
        intro x hx
        by_cases hth : newThreshold now ≤ x.createdAt
        · have h2 : ¬(x.createdAt < newThreshold now) := by omega
          simp [hth, h2]
        · have h2 : x.createdAt < newThreshold now := by omega
          simp [hth, h2]
      rw [hcongr]
      unfold trulyNew
      exact length_filter_not _ _
    rw [hp1, List.length_append]
    unfold backfill
    rw [List.length_take, hp2]
    omega
  · intro i j hnew hold
    by_contra hc
    push_neg at hc
    rcases Nat.lt_or_ge (j : Nat) (i : Nat) with hlt2 | hge
    · have hR := (List.pairwise_iff_get.mp hpw) j i (Fin.lt_def.mpr hlt2)
      omega
    · have hij : i = j := Fin.ext (by omega)
      subst hij
      omega

/-- C9 witness: with one product inside the ninety-day window and one
older product, both active and not on sale, the page backfills to show
both, and the resulting length is the number of active products since
it is below the minimum of fifty. -/
theorem new_products_page_spec_witness :
    (fetchNewProducts 8000000000
      [{ id := 1, createdAt := 300000000, isActive := true, onSale := false,
         price := 10 },
       { id := 2, createdAt := 100000000, isActive := true, onSale := false,
         price := 20 }]).length =
      min MIN_NEW_PRODUCTS
        (activeNonSale
          [{ id := 1, createdAt := 300000000, isActive := true, onSale := false,
             price := 10 },
           { id := 2, createdAt := 100000000, isActive := true, onSale := false,
             price := 20 }]).length :=
  (new_products_page_spec 8000000000
    [{ id := 1, createdAt := 300000000, isActive := true, onSale := false,
       price := 10 },
     { id := 2, createdAt := 100000000, isActive := true, onSale := false,
       price := 20 }]).2.2.1 (by decide)
